import Mathlib

/-!
Shallow embedding of `packages/pyodide-runtime/src/runt_runtime_registry.py`
(the function registry of the anode repository: schema derivation from
signatures, registration, JSON argument extraction, and dispatch), together
with proofs about its behaviour.

Conventions of the embedding:
* Python values decoded from JSON are the inductive `JsonValue`.
* `json.loads` / `json.dumps` are modelled by `json_loads` / `jsonDumps` on
  the JSON fragment actually exercised by the registry here: integer
  numerals, strings without escape sequences, booleans, `null`, arrays and
  objects.  Inputs outside that fragment are treated as unparseable.
* Python type annotations are the inductive `PyType`; `typing.Union[...]`
  is `PyType.pyUnion`, `NoneType` is `PyType.pyNone`.
* Exceptions become `Except` results; the distinct raise sites of the source
  become distinct constructors of the error inductives.
-/

/-- A decoded JSON value (what Python's `json.loads` can return). -/
inductive JsonValue where
  | null
  | bool (b : Bool)
  | num (n : Int)
  | str (s : String)
  | arr (elems : List JsonValue)
  | obj (entries : List (String × JsonValue))

/-- The character `{` (written via its code point to keep string literals plain). -/
def lbrace : Char := Char.ofNat 123

/-- The character `}`. -/
def rbrace : Char := Char.ofNat 125

/-- JSON insignificant whitespace, as accepted by Python's `json.loads`. -/
def isJsonWs (c : Char) : Bool :=
  c = ' ' || c = '\t' || c = '\n' || c = '\r'

/-- Drop leading JSON whitespace. -/
def skipWs : List Char → List Char
  | [] => []
  | c :: cs => if isJsonWs c then skipWs cs else c :: cs

/-- Consume an expected literal character sequence, returning the remainder. -/
def stripLit : List Char → List Char → Option (List Char)
  | [], cs => some cs
  | _ :: _, [] => none
  | e :: es, c :: cs => if c = e then stripLit es cs else none

/-- Accumulate decimal digits into a natural number. -/
def takeDigits (acc : Nat) : List Char → (Nat × List Char)
  | [] => (acc, [])
  | c :: cs =>
    if c.isDigit then takeDigits (acc * 10 + (c.toNat - 48)) cs
    else (acc, c :: cs)

/-- Parse an integer numeral (the numeric fragment modelled here). -/
def parseNumber : List Char → Option (JsonValue × List Char)
  | [] => none
  | '-' :: c :: cs =>
    if c.isDigit then
      let p := takeDigits (c.toNat - 48) cs
      some (.num (-(p.1 : Int)), p.2)
    else none
  | c :: cs =>
    if c.isDigit then
      let p := takeDigits (c.toNat - 48) cs
      some (.num (p.1 : Int), p.2)
    else none

/-- Parse the body of a string literal (no escape sequences in the fragment);
the opening quote has already been consumed. -/
def parseStringChars (acc : List Char) : List Char → Option (String × List Char)
  | [] => none
  | c :: cs =>
    if c = '"' then some (String.mk acc.reverse, cs)
    else if c = '\\' then none
    else parseStringChars (c :: acc) cs

/-- Insert a key into an association list the way assignment into a Python
`dict` does: an existing key keeps its position and gets the new value, a new
key is appended. -/
def insertPair (entries : List (String × JsonValue)) (k : String) (v : JsonValue) :
    List (String × JsonValue) :=
  match entries with
  | [] => [(k, v)]
  | (k0, v0) :: rest =>
    if k0 = k then (k0, v) :: rest else (k0, v0) :: insertPair rest k v

/-- Collapse duplicate keys of parsed object members, later occurrences
winning, as Python's dict construction does. -/
def buildDict (pairs : List (String × JsonValue)) : List (String × JsonValue) :=
  pairs.foldl (fun acc kv => insertPair acc kv.1 kv.2) []

mutual

/-- Recursive-descent JSON value parser, fuelled to make the recursion
structural; `json_loads` supplies ample fuel. -/
def parseValue : Nat → List Char → Option (JsonValue × List Char)
  | 0, _ => none
  | fuel + 1, cs =>
    match skipWs cs with
    | [] => none
    | c :: rest =>
      if c = 'n' then
        match stripLit ['u', 'l', 'l'] rest with
        | some r => some (.null, r)
        | none => none
      else if c = 't' then
        match stripLit ['r', 'u', 'e'] rest with
        | some r => some (.bool true, r)
        | none => none
      else if c = 'f' then
        match stripLit ['a', 'l', 's', 'e'] rest with
        | some r => some (.bool false, r)
        | none => none
      else if c = '"' then
        match parseStringChars [] rest with
        | some (s, r) => some (.str s, r)
        | none => none
      else if c = '[' then
        match skipWs rest with
        | ']' :: r2 => some (.arr [], r2)
        | r2 =>
          match parseItems fuel r2 with
          | some (vs, r3) => some (.arr vs, r3)
          | none => none
      else if c = lbrace then
        match skipWs rest with
        | [] => none
        | d :: r2 =>
          if d = rbrace then some (.obj [], r2)
          else
            match parseMembers fuel (d :: r2) with
            | some (kvs, r3) => some (.obj (buildDict kvs), r3)
            | none => none
      else parseNumber (c :: rest)

/-- Parse the comma-separated items of a non-empty array, up to `]`. -/
def parseItems : Nat → List Char → Option (List JsonValue × List Char)
  | 0, _ => none
  | fuel + 1, cs =>
    match parseValue fuel cs with
    | none => none
    | some (v, rest) =>
      match skipWs rest with
      | ',' :: r2 =>
        match parseItems fuel r2 with
        | some (vs, r3) => some (v :: vs, r3)
        | none => none
      | ']' :: r2 => some ([v], r2)
      | _ => none

/-- Parse the comma-separated members of a non-empty object, up to the
closing brace. -/
def parseMembers : Nat → List Char → Option (List (String × JsonValue) × List Char)
  | 0, _ => none
  | fuel + 1, cs =>
    match skipWs cs with
    | [] => none
    | c :: rest =>
      if c = '"' then
        match parseStringChars [] rest with
        | none => none
        | some (key, r2) =>
          match skipWs r2 with
          | ':' :: r3 =>
            match parseValue fuel r3 with
            | none => none
            | some (v, r4) =>
              match skipWs r4 with
              | ',' :: r5 =>
                match parseMembers fuel r5 with
                | some (kvs, r6) => some ((key, v) :: kvs, r6)
                | none => none
              | d :: r5 => if d = rbrace then some ([(key, v)], r5) else none
              | [] => none
          | _ => none
      else none

end

/-- Model of Python's `json.loads` on the modelled fragment: `some v` when the
whole input is a single JSON value, `none` when parsing raises
`json.JSONDecodeError`. -/
def json_loads (s : String) : Option JsonValue :=
  match parseValue (2 * s.length + 2) s.data with
  | some (v, rest) => if skipWs rest = [] then some v else none
  | none => none

mutual

/-- Model of Python's `json.dumps` (default separators) on `JsonValue`. -/
def jsonDumps : JsonValue → String
  | .null => "null"
  | .bool true => "true"
  | .bool false => "false"
  | .num n => toString n
  | .str s => "\"" ++ s ++ "\""
  | .arr elems => "[" ++ jsonDumpsArr elems ++ "]"
  | .obj entries => "\x7b" ++ jsonDumpsObj entries ++ "\x7d"

/-- Serialize array elements, comma-separated. -/
def jsonDumpsArr : List JsonValue → String
  | [] => ""
  | [v] => jsonDumps v
  | v :: vs => jsonDumps v ++ ", " ++ jsonDumpsArr vs

/-- Serialize object members, comma-separated. -/
def jsonDumpsObj : List (String × JsonValue) → String
  | [] => ""
  | [(k, v)] => "\"" ++ k ++ "\": " ++ jsonDumps v
  | (k, v) :: kvs => "\"" ++ k ++ "\": " ++ jsonDumps v ++ ", " ++ jsonDumpsObj kvs

end

/-! ## Python type annotations, callables and registration errors -/

/-- A Python type annotation, restricted to the type fragment the registry's
own schema pipeline handles: the JSON-serializable builtins plus
`typing.Union` (hence `Optional`); `pyNone` is `type(None)`. -/
inductive PyType where
  | pyInt
  | pyFloat
  | pyStr
  | pyBool
  | pyList
  | pyDict
  | pyNone
  | pyUnion (args : List PyType)

/-- Test for the `NoneType` annotation (`arg is type(None)` in the source). -/
def isNoneT : PyType → Bool
  | .pyNone => true
  | _ => false

/-- One entry of `inspect.signature(function).parameters`:  the parameter
name, its annotation (`none` models `inspect.Parameter.empty`), and its
declared default (`none` models "no default"). -/
structure Param where
  name : String
  annotation : Option PyType
  default : Option JsonValue

/-- A Python value a registered callable can return: a `str` (returned
verbatim by the dispatcher), a JSON-encodable non-string value, or an object
with no native JSON representation whose `str()` text is `s`. -/
inductive PyValue where
  | vStr (s : String)
  | vJson (v : JsonValue)
  | vObj (s : String)

/-- Outcome of executing a callable's body: a return value, or an exception
with the given message. -/
inductive PyResult where
  | ok (v : PyValue)
  | raise (msg : String)

/-- A Python callable as the registry sees it: `__name__` (`"<lambda>"` for a
lambda), `__doc__`, the inspected signature, and the body's behaviour on a
prepared keyword-argument set.  The `asyncio.iscoroutinefunction` split in
`FunctionRegistry.call` only changes how the body is awaited, not what it
computes, so sync and async callables share this representation. -/
structure PyFunction where
  name : String
  doc : Option String
  params : List Param
  body : List (String × JsonValue) → PyResult

/-- Registration-time errors: the four distinct `raise Exception(...)` sites
of `extract_model_from_function` and `generate_function_schema`. -/
inductive RegError where
  | missingName (msg : String)
  | lambdaError (msg : String)
  | missingDoc (msg : String)
  | missingAnnotationError (msg : String)

/-- Line 87 of the source: the `ALLOWED_TYPES` list.  It is defined in the
module but never referenced by any other code there. -/
def ALLOWED_TYPES : List PyType :=
  [.pyInt, .pyStr, .pyBool, .pyFloat, .pyList, .pyDict]

/-- Lines 89–98 of the source: the `JSON_SCHEMA_TYPES` mapping.  Also defined
but never referenced; the actual schema rendering is pydantic's. -/
def JSON_SCHEMA_TYPES : List (PyType × String) :=
  [(.pyInt, "integer"), (.pyFloat, "number"), (.pyStr, "string"),
   (.pyBool, "boolean"), (.pyList, "array"), (.pyDict, "object")]

/-! ## Model extraction (`extract_model_from_function`) -/

/-- One field of the pydantic model built by `create_model`: name, resolved
type, and resolved default (`none` is pydantic's required marker `...`). -/
structure FieldSpec where
  name : String
  ftype : PyType
  fdefault : Option JsonValue

/-- `next(arg for arg in args if arg is not type(None))`: the first non-None
arm of a union. -/
def firstNonNone (args : List PyType) : PyType :=
  (args.filter (fun a => !isNoneT a)).headD .pyNone

/-- Resolve one annotated parameter to a model field, applying the source's
special case: a two-armed `Union` containing `NoneType` is unwrapped to its
non-None arm and its default becomes `None` (overwriting any declared
default, exactly as the source does). -/
def resolveField (p : Param) (t : PyType) : FieldSpec :=
  match t with
  | .pyUnion args =>
    if args.length = 2 && args.any isNoneT then
      ⟨p.name, firstNonNone args, some .null⟩
    else ⟨p.name, .pyUnion args, p.default⟩
  | t => ⟨p.name, t, p.default⟩

/-- `extract_model_from_function`, lines 119–163: walk the signature in
order, skip `self`, fail on the first parameter with no annotation, resolve
the rest to model fields.  (The source also accumulates a `required_fields`
list, but never reads it; the required set of the emitted schema comes from
pydantic, i.e. from which fields have a default.) -/
def extract_model_from_function (func_name : String) (params : List Param) :
    Except RegError (List FieldSpec) :=
  match params with
  | [] => .ok []
  | p :: rest =>
    if p.name = "self" then extract_model_from_function func_name rest
    else
      match p.annotation with
      | none =>
        .error (.missingAnnotationError ("`" ++ p.name ++ "` parameter of " ++ func_name ++
          " must have a JSON-serializable type annotation"))
      | some t =>
        match extract_model_from_function func_name rest with
        | .error e => .error e
        | .ok fields => .ok (resolveField p t :: fields)

/-! ## Schema rendering (pydantic `model_json_schema`) -/

mutual

/-- The JSON-Schema key/value pairs pydantic emits for one annotation of the
modelled fragment (`int ↦ integer`, `Union ↦ anyOf`, …). -/
def typeSchemaKVs : PyType → List (String × JsonValue)
  | .pyInt => [("type", .str "integer")]
  | .pyFloat => [("type", .str "number")]
  | .pyStr => [("type", .str "string")]
  | .pyBool => [("type", .str "boolean")]
  | .pyList => [("items", .obj []), ("type", .str "array")]
  | .pyDict => [("additionalProperties", .bool true), ("type", .str "object")]
  | .pyNone => [("type", .str "null")]
  | .pyUnion args => [("anyOf", .arr (typeSchemaList args))]

/-- Schemas of the arms of a union. -/
def typeSchemaList : List PyType → List JsonValue
  | [] => []
  | t :: ts => .obj (typeSchemaKVs t) :: typeSchemaList ts

end

/-- The property schema pydantic emits for one model field: its default when
it has one, its type keys, and a `title` (the capitalized field name); key
order is canonicalized here, all statements below go through lookups. -/
def field_schema (f : FieldSpec) : JsonValue :=
  .obj ((match f.fdefault with | some d => [("default", d)] | none => []) ++
        typeSchemaKVs f.ftype ++ [("title", .str f.name.capitalize)])

/-- Pydantic's `model_json_schema()` for the generated model: `properties`
for every field, `required` listing the fields with no default (omitted when
empty, exactly as pydantic omits it), a model `title`, and `type: object`. -/
def model_json_schema (modelName : String) (fields : List FieldSpec) : JsonValue :=
  let requiredNames :=
    (fields.filter (fun f => f.fdefault.isNone)).map (fun f => JsonValue.str f.name)
  .obj ([("properties", .obj (fields.map (fun f => (f.name, field_schema f))))] ++
        (if requiredNames.isEmpty then [] else [("required", .arr requiredNames)]) ++
        [("title", .str modelName), ("type", .str "object")])

/-! ## JSON object helpers (Python dict operations on decoded values) -/

/-- Case-sensitive association-list lookup (Python `dict` lookup). -/
def assocLookup {α : Type} : List (String × α) → String → Option α
  | [], _ => none
  | (k, v) :: rest, n => if k = n then some v else assocLookup rest n

/-- Python `dict` assignment: existing keys keep their position, new keys are
appended. -/
def assocUpdate {α : Type} : List (String × α) → String → α → List (String × α)
  | [], k, v => [(k, v)]
  | (k0, v0) :: rest, k, v =>
    if k0 = k then (k0, v) :: rest else (k0, v0) :: assocUpdate rest k v

/-- `d[k]` lookup on a decoded JSON object; `none` on other values. -/
def objLookup (v : JsonValue) (k : String) : Option JsonValue :=
  match v with
  | .obj entries => assocLookup entries k
  | _ => none

/-- `k in d` on a decoded JSON object. -/
def objHasKey (v : JsonValue) (k : String) : Bool :=
  match v with
  | .obj entries => entries.any (fun kv => kv.1 == k)
  | _ => false

/-- `d[k] = x` on a decoded JSON object. -/
def objSet (v : JsonValue) (k : String) (x : JsonValue) : JsonValue :=
  match v with
  | .obj entries => .obj (assocUpdate entries k x)
  | w => w

/-- `d.pop(k, None)` on a decoded JSON object (drops the key). -/
def objRemove (v : JsonValue) (k : String) : JsonValue :=
  match v with
  | .obj entries => .obj (entries.filter (fun kv => kv.1 != k))
  | w => w

/-- Apply `f` to every value of the `properties` sub-object (the source's
per-property `pop("title", None)` loop). -/
def mapProperties (v : JsonValue) (f : JsonValue → JsonValue) : JsonValue :=
  match objLookup v "properties" with
  | some (.obj props) => objSet v "properties" (.obj (props.map (fun kv => (kv.1, f kv.2))))
  | _ => v

/-! ## `generate_function_schema` and the registry -/

/-- The `FunctionDefinition` TypedDict (the optional `strict` key is never
set by this module and is omitted). -/
structure FunctionDefinition where
  name : String
  description : String
  parameters : JsonValue

/-- The signature-derivation arm of `generate_function_schema`: build the
pydantic model, render its JSON schema. -/
def derive_parameters (func_name : String) (params : List Param) :
    Except RegError JsonValue :=
  match extract_model_from_function func_name params with
  | .error e => .error e
  | .ok fields => .ok (model_json_schema func_name fields)

/-- Lines 189–198 of the source, in order: ensure `properties` exists, pop
the top-level `title`, pop each property's `title`, ensure `required`
exists. -/
def finalize_parameters (parameters : JsonValue) : JsonValue :=
  let ps := if objHasKey parameters "properties" then parameters
            else objSet parameters "properties" (.obj [])
  let ps := objRemove ps "title"
  let ps := mapProperties ps (fun v => objRemove v "title")
  if objHasKey ps "required" then ps else objSet ps "required" (.arr [])

/-- `generate_function_schema`, lines 166–205.  `parameter_schema` models the
explicit dict override (a pydantic-model override is outside the modelled
fragment).  The three guard checks happen before any derivation, in source
order. -/
def generate_function_schema (function : PyFunction)
    (parameter_schema : Option JsonValue) : Except RegError FunctionDefinition :=
  if function.name = "" then
    .error (.missingName "Function must have a name")
  else if function.name = "<lambda>" then
    .error (.lambdaError "Lambdas cannot be registered. Use `def` instead.")
  else
    match function.doc with
    | none => .error (.missingDoc "Only functions with docstrings can be registered")
    | some doc =>
      if doc = "" then
        .error (.missingDoc "Only functions with docstrings can be registered")
      else
        match (match parameter_schema with
               | some d => Except.ok d
               | none => derive_parameters function.name function.params) with
        | .error e => .error e
        | .ok parameters => .ok ⟨function.name, doc, finalize_parameters parameters⟩

/-- `FunctionRegistry.__functions` and `FunctionRegistry.__schemas`, as
insertion-ordered maps. -/
structure FunctionRegistry where
  functions : List (String × PyFunction)
  schemas : List (String × FunctionDefinition)

/-- A fresh registry (`FunctionRegistry.__init__`). -/
def emptyRegistry : FunctionRegistry := ⟨[], []⟩

/-- `register_function`, lines 279–290: derive the schema first; only on
success store the callable and the schema, both under `function.__name__`.
On failure the exception propagates and neither map is touched. -/
def register_function (reg : FunctionRegistry) (function : PyFunction)
    (parameter_schema : Option JsonValue) :
    Except RegError (FunctionRegistry × FunctionDefinition) :=
  match generate_function_schema function parameter_schema with
  | .error e => .error e
  | .ok final_schema =>
    .ok (⟨assocUpdate reg.functions function.name function,
          assocUpdate reg.schemas function.name final_schema⟩, final_schema)

/-- `get`, line 302. -/
def FunctionRegistry.get (reg : FunctionRegistry) (function_name : String) :
    Option PyFunction :=
  assocLookup reg.functions function_name

/-- `get_schema`, line 306. -/
def FunctionRegistry.get_schema (reg : FunctionRegistry) (function_name : String) :
    Option FunctionDefinition :=
  assocLookup reg.schemas function_name

/-- `__contains__`, line 331. -/
def FunctionRegistry.contains (reg : FunctionRegistry) (name : String) : Bool :=
  (assocLookup reg.functions name).isSome

/-- `function_definitions`, line 335: the schema map's values in insertion
order. -/
def FunctionRegistry.function_definitions (reg : FunctionRegistry) :
    List FunctionDefinition :=
  reg.schemas.map Prod.snd

/-! ## Argument extraction and dispatch -/

/-- Call-time exceptions as they leave `FunctionRegistry.call`:
`UnknownFunctionError`, `FunctionArgumentError`, Python's `AttributeError`
(raised by `.get` on a non-dict parse result), and any exception the
callable's own body raises. -/
inductive PyExc where
  | unknownFunction (msg : String)
  | functionArgument (msg : String)
  | attributeError (msg : String)
  | userExc (msg : String)

/-- Python's type name for a decoded JSON value (used in the
`AttributeError` message). -/
def pyTypeName : JsonValue → String
  | .null => "NoneType"
  | .bool _ => "bool"
  | .num _ => "int"
  | .str _ => "str"
  | .arr _ => "list"
  | .obj _ => "dict"

/-- `dict_arguments.get(param_name)`: on a dict, the value or `None`; on any
other decoded value, an `AttributeError` — the source never checks that the
parsed payload is an object. -/
def jsonGet (v : JsonValue) (key : String) : Except PyExc JsonValue :=
  match v with
  | .obj entries => .ok ((assocLookup entries key).getD .null)
  | w => .error (.attributeError
      ("'" ++ pyTypeName w ++ "' object has no attribute 'get'"))

/-- The parameter loop of `extract_arguments`, lines 360–373: bind every
signature parameter, in order, to `dict_arguments.get(name)`.  The source's
pydantic-model branch (`issubclass(param_type, BaseModel)`) is outside the
modelled type fragment — no `PyType` denotes a `BaseModel` subclass — so the
plain `cast` branch is always the one taken; annotations are otherwise not
consulted here, and a parameter named `self` is *not* skipped. -/
def bind_params (dict_arguments : JsonValue) : List Param →
    Except PyExc (List (String × JsonValue))
  | [] => .ok []
  | p :: ps =>
    match jsonGet dict_arguments p.name with
    | .error e => .error e
    | .ok v =>
      match bind_params dict_arguments ps with
      | .error e => .error e
      | .ok rest => .ok ((p.name, v) :: rest)

/-- `extract_arguments`, lines 341–373: `None` or `""` mean `{}`; other
payloads go through `json.loads`, a decode error becoming
`FunctionArgumentError`; then every signature parameter is bound. -/
def extract_arguments (name : String) (function : PyFunction)
    (arguments : Option String) : Except PyExc (List (String × JsonValue)) :=
  match arguments with
  | none => bind_params (.obj []) function.params
  | some s =>
    if s = "" then bind_params (.obj []) function.params
    else
      match json_loads s with
      | some dict_arguments => bind_params dict_arguments function.params
      | none => .error (.functionArgument
          ("Invalid Function call on " ++ name ++ ". Arguments must be a valid JSON object"))

/-- `FunctionRegistry.call`, lines 310–329: look the name up (the
`name is None` guard is unrepresentable for a Lean `String`), extract the
arguments, run the body; a body exception propagates as `userExc`.  The
registry itself is never written by a call. -/
def FunctionRegistry.call (reg : FunctionRegistry) (name : String)
    (arguments : Option String) : Except PyExc PyValue :=
  match reg.get name with
  | none => .error (.unknownFunction ("Function " ++ name ++ " is not registered"))
  | some function =>
    match extract_arguments name function arguments with
    | .error e => .error e
    | .ok prepared_arguments =>
      match function.body prepared_arguments with
      | .ok result => .ok result
      | .raise m => .error (.userExc m)

/-- Errors as `run_registered_tool` re-raises them: `ToolNotFoundError`, the
re-raised `FunctionArgumentError`/`FunctionError`, and the generic
`Exception` wrapping a tool-execution failure with its traceback text. -/
inductive ToolError where
  | toolNotFound (msg : String)
  | functionArgument (msg : String)
  | execError (msg : String) (trace : String)

/-- Model of `traceback.format_exc()` for an exception with message `m`: the
header line plus the exception text.  The in-between stack frames are
interpreter state and are abstracted away; the captured text is never
empty. -/
def pythonTraceback (m : String) : String :=
  "Traceback (most recent call last):\n" ++ m

/-- Result normalization of `run_registered_tool`, lines 430–432: a `str` is
returned as-is, anything else goes through `json.dumps(result, default=str)`,
which stringifies (and then quotes) values with no native JSON
representation instead of failing. -/
def normalize_result : PyValue → String
  | .vStr s => s
  | .vJson v => jsonDumps v
  | .vObj s => jsonDumps (.str s)

/-- The message of the generic execution-failure branch, line 449. -/
def execFailureMsg (toolName m : String) : String :=
  "Tool '" ++ toolName ++ "' execution failed with error: " ++ m

/-- `run_registered_tool`, lines 424–456: dispatch through the registry,
normalize the result, and map the exception taxonomy —
`UnknownFunctionError ↦ ToolNotFoundError`, argument errors re-raised
unchanged, any other exception wrapped with its formatted traceback. -/
def run_registered_tool (reg : FunctionRegistry) (toolName : String)
    (kwargs_string : String) : Except ToolError String :=
  match reg.call toolName (some kwargs_string) with
  | .ok result => .ok (normalize_result result)
  | .error (.unknownFunction _) =>
    .error (.toolNotFound ("Tool " ++ toolName ++ " not found"))
  | .error (.functionArgument m) => .error (.functionArgument m)
  | .error (.attributeError m) =>
    .error (.execError (execFailureMsg toolName m) (pythonTraceback m))
  | .error (.userExc m) =>
    .error (.execError (execFailureMsg toolName m) (pythonTraceback m))

/-! ## Registry operations as state transitions -/

/-- `register_functions`, lines 292–300: register each callable in turn; an
exception aborts the remaining iterations but keeps the entries already
registered. -/
def registerManyGo (reg : FunctionRegistry) : List PyFunction → FunctionRegistry
  | [] => reg
  | f :: fs =>
    match register_function reg f none with
    | .ok (reg2, _) => registerManyGo reg2 fs
    | .error _ => reg

/-- The registry's public mutating/reading operations, for stating
invariants over arbitrary operation sequences. -/
inductive RegOp where
  | regOne (f : PyFunction) (parameter_schema : Option JsonValue)
  | regMany (fs : List PyFunction)
  | callOp (name : String) (arguments : Option String)

/-- State effect of one operation: a failed registration leaves the maps
untouched (the exception is raised before either assignment), and `call`
only reads the maps. -/
def FunctionRegistry.step (reg : FunctionRegistry) : RegOp → FunctionRegistry
  | .regOne f ps =>
    match register_function reg f ps with
    | .ok (reg2, _) => reg2
    | .error _ => reg
  | .regMany fs => registerManyGo reg fs
  | .callOp _ _ => reg

/-- Run a sequence of registry operations from a given state. -/
def runOps (reg : FunctionRegistry) : List RegOp → FunctionRegistry
  | [] => reg
  | op :: ops => runOps (reg.step op) ops

/-! ## Concrete callables used as test inputs -/

/-- Body of `def add(a: int, b: int): return a + b` — on two ints it returns
their sum, on an `int` plus `None` Python raises a `TypeError`. -/
def add_body (args : List (String × JsonValue)) : PyResult :=
  match assocLookup args "a", assocLookup args "b" with
  | some (.num x), some (.num y) => .ok (.vJson (.num (x + y)))
  | _, _ => .raise "unsupported operand type(s) for +: 'int' and 'NoneType'"

/-- `add(a: int, b: int)` with docstring "Add two numbers". -/
def add_fn : PyFunction :=
  ⟨"add", some "Add two numbers",
   [⟨"a", some .pyInt, none⟩, ⟨"b", some .pyInt, none⟩], add_body⟩

/-- A registry holding exactly `add`. -/
def regAdd : FunctionRegistry := emptyRegistry.step (.regOne add_fn none)

/-- `def ping(): return "pong"` — no parameters, string result. -/
def ping_fn : PyFunction :=
  ⟨"ping", some "Ping", [], fun _ => .ok (.vStr "pong")⟩

/-- A registry holding exactly `ping`. -/
def regPing : FunctionRegistry := emptyRegistry.step (.regOne ping_fn none)

/-- `def boom(): raise KeyError('kaboom')` — a body that always fails. -/
def boom_fn : PyFunction :=
  ⟨"boom", some "Always fails", [], fun _ => .raise "'kaboom'"⟩

/-- A registry holding `boom` and `add`. -/
def regBoomAdd : FunctionRegistry :=
  runOps emptyRegistry [.regOne boom_fn none, .regOne add_fn none]

/-- `def pick(x: Union[int, str]): ...` — a multi-arm union parameter. -/
def pick_fn : PyFunction :=
  ⟨"pick", some "Pick", [⟨"x", some (.pyUnion [.pyInt, .pyStr]), none⟩],
   fun _ => .ok (.vStr "ok")⟩

/-- `def maybe(a: int, b: Optional[str]): ...` — the two-armed-union-with-None
parameter shape, with no explicit default for `b`. -/
def maybe_fn : PyFunction :=
  ⟨"maybe", some "Maybe",
   [⟨"a", some .pyInt, none⟩, ⟨"b", some (.pyUnion [.pyStr, .pyNone]), none⟩],
   fun _ => .ok (.vJson .null)⟩

/-- An unbound method `def greet(self, x: int): ...` registered directly: its
inspected signature still contains the receiver `self`. -/
def greet_fn : PyFunction :=
  ⟨"greet", some "Greet", [⟨"self", none, none⟩, ⟨"x", some .pyInt, none⟩],
   fun _ => .ok (.vStr "hi")⟩

/-- `def bad(x): ...` — a parameter with no type annotation. -/
def bad_fn : PyFunction :=
  ⟨"bad", some "Bad", [⟨"x", none, none⟩], fun _ => .ok (.vStr "never")⟩

/-! ## General lemmas about the embedding -/

/-- The captured traceback text is never empty. -/
theorem pythonTraceback_ne_empty (m : String) : pythonTraceback m ≠ "" := by
  intro h
  have h2 := congrArg String.length h
  rw [pythonTraceback, String.length_append] at h2
  have h3 : ("Traceback (most recent call last):\n" : String).length = 35 := rfl
  have h4 : ("" : String).length = 0 := rfl
  rw [h3, h4] at h2
  omega

/-- Binding parameters against a decoded JSON *object* never fails: each
parameter gets the payload's value for its name, or `null` when absent. -/
theorem bind_params_obj (kvs : List (String × JsonValue)) (ps : List Param) :
    bind_params (.obj kvs) ps =
      .ok (ps.map fun p => (p.name, (assocLookup kvs p.name).getD .null)) := by
  induction ps with
  | nil => rfl
  | cons p ps ih => simp [bind_params, jsonGet, ih]

/-- Keys of an association list. -/
def keysOf {α : Type} (l : List (String × α)) : List String := l.map Prod.fst

/-- The effect of `assocUpdate` on the key list alone. -/
def updateKeys (l : List String) (k : String) : List String :=
  match l with
  | [] => [k]
  | k0 :: rest => if k0 = k then k0 :: rest else k0 :: updateKeys rest k

theorem keysOf_assocUpdate {α : Type} (l : List (String × α)) (k : String) (v : α) :
    keysOf (assocUpdate l k v) = updateKeys (keysOf l) k := by
  induction l with
  | nil => rfl
  | cons kv rest ih =>
    by_cases h : kv.1 = k
    · simp [assocUpdate, updateKeys, keysOf, h]
    · simp only [assocUpdate, if_neg h, keysOf, List.map_cons, updateKeys]
      exact congrArg (kv.1 :: ·) ih

theorem mem_updateKeys (l : List String) (k m : String) :
    m ∈ updateKeys l k ↔ m ∈ l ∨ m = k := by
  induction l with
  | nil => simp [updateKeys]
  | cons k0 rest ih =>
    by_cases h : k0 = k
    · subst h; simp only [updateKeys, if_pos rfl]
      constructor
      · intro hm; rcases List.mem_cons.mp hm with h1 | h1
        · exact Or.inl (List.mem_cons.mpr (Or.inl h1))
        · exact Or.inl (List.mem_cons.mpr (Or.inr h1))
      · intro hm
        rcases hm with h1 | h1
        · exact h1
        · exact List.mem_cons.mpr (Or.inl h1)
    · simp only [updateKeys, if_neg h, List.mem_cons, ih]
      tauto

theorem nodup_updateKeys (l : List String) (k : String) (h : l.Nodup) :
    (updateKeys l k).Nodup := by
  induction l with
  | nil => simp [updateKeys]
  | cons k0 rest ih =>
    rw [List.nodup_cons] at h
    by_cases hk : k0 = k
    · rw [updateKeys, if_pos hk, List.nodup_cons]
      exact ⟨h.1, h.2⟩
    · rw [updateKeys, if_neg hk, List.nodup_cons]
      refine ⟨fun hm => ?_, ih h.2⟩
      rcases (mem_updateKeys rest k k0).mp hm with h1 | h1
      · exact h.1 h1
      · exact hk h1

theorem mem_assocUpdate {α : Type} (l : List (String × α)) (k : String) (v : α)
    (kv : String × α) (h : kv ∈ assocUpdate l k v) : kv ∈ l ∨ kv = (k, v) := by
  induction l with
  | nil => simp [assocUpdate] at h; exact Or.inr h
  | cons kv0 rest ih =>
    by_cases hk : kv0.1 = k
    · rw [assocUpdate, if_pos hk] at h
      rcases List.mem_cons.mp h with h1 | h1
      · right; rw [h1, ← hk]
      · exact Or.inl (List.mem_cons.mpr (Or.inr h1))
    · rw [assocUpdate, if_neg hk] at h
      rcases List.mem_cons.mp h with h1 | h1
      · exact Or.inl (List.mem_cons.mpr (Or.inl h1))
      · rcases ih h1 with h2 | h2
        · exact Or.inl (List.mem_cons.mpr (Or.inr h2))
        · exact Or.inr h2

theorem assocLookup_isSome_iff {α : Type} (l : List (String × α)) (n : String) :
    (assocLookup l n).isSome = true ↔ n ∈ keysOf l := by
  induction l with
  | nil => simp [assocLookup, keysOf]
  | cons kv rest ih =>
    rw [keysOf, List.map_cons, List.mem_cons]
    by_cases h : kv.1 = n
    · rw [assocLookup, if_pos h]
      exact ⟨fun _ => Or.inl h.symm, fun _ => rfl⟩
    · rw [assocLookup, if_neg h]
      constructor
      · intro hm; exact Or.inr (ih.mp hm)
      · intro hm
        rcases hm with h1 | h1
        · exact absurd h1.symm h
        · exact ih.mpr h1

/-- A schema produced by `generate_function_schema` carries the callable's
own name. -/
theorem generate_function_schema_name (f : PyFunction) (ps : Option JsonValue)
    (fd : FunctionDefinition) (h : generate_function_schema f ps = .ok fd) :
    fd.name = f.name := by
  unfold generate_function_schema at h
  repeat'
    first
      | exact Except.noConfusion h
      | split at h
  injection h with h
  subst h
  rfl

/-! ## Claim theorems -/

/-- C1: the spec says `call("add", '{"a":2}')` must fail with
`ArgumentValidationError` naming `b` before the callable runs.  The code
performs no such validation: evaluating it at that exact input shows the
argument extractor binds the missing required parameter `b` to `null`, the
callable `add` *is* invoked (the resulting error is the body's own
`TypeError`, surfaced by `run_registered_tool` as the generic execution
failure), and no argument-validation error is ever raised. -/
theorem C1_missing_required_argument_reaches_callable :
    extract_arguments "add" add_fn (some "\x7b\"a\":2\x7d") =
      .ok [("a", .num 2), ("b", .null)] ∧
    regAdd.call "add" (some "\x7b\"a\":2\x7d") =
      .error (.userExc "unsupported operand type(s) for +: 'int' and 'NoneType'") ∧
    run_registered_tool regAdd "add" "\x7b\"a\":2\x7d" =
      .error (.execError
        (execFailureMsg "add" "unsupported operand type(s) for +: 'int' and 'NoneType'")
        (pythonTraceback "unsupported operand type(s) for +: 'int' and 'NoneType'")) :=
  ⟨rfl, rfl, rfl⟩

/-- C2: calling a name with no registered entry fails with
`UnknownFunctionError` (re-raised as `ToolNotFoundError` by the tool layer)
without invoking any callable, the registry state is unchanged by the failed
call, and every other registered entry is still called exactly as before. -/
theorem C2_unknown_function_error (reg : FunctionRegistry) (name : String)
    (arguments : Option String) (h : reg.get name = none) :
    reg.call name arguments =
      .error (.unknownFunction ("Function " ++ name ++ " is not registered")) ∧
    (∀ p, run_registered_tool reg name p =
      .error (.toolNotFound ("Tool " ++ name ++ " not found"))) ∧
    reg.step (.callOp name arguments) = reg ∧
    (∀ other args2, (reg.step (.callOp name arguments)).call other args2 =
      reg.call other args2) := by
  have hc : ∀ a, reg.call name a =
      .error (.unknownFunction ("Function " ++ name ++ " is not registered")) := by
    intro a
    unfold FunctionRegistry.call
    rw [h]
  refine ⟨hc arguments, fun p => ?_, rfl, fun _ _ => rfl⟩
  unfold run_registered_tool
  rw [hc (some p)]

/-- Witness for C2 at a concrete registry: `call("nonexistent", "{}")` on a
registry holding `add` fails with the not-found error, and `add` remains
callable afterwards. -/
theorem C2_unknown_function_error_witness :
    regAdd.get "nonexistent" = none ∧
    run_registered_tool regAdd "nonexistent" "\x7b\x7d" =
      .error (.toolNotFound "Tool nonexistent not found") ∧
    run_registered_tool regAdd "add" "\x7b\"a\":2,\"b\":3\x7d" = .ok "5" :=
  ⟨rfl,
   (C2_unknown_function_error regAdd "nonexistent" (some "\x7b\x7d") rfl).2.1 "\x7b\x7d",
   rfl⟩

/-- C3: when a registered callable's body raises, the call fails with the
execution-failure error whose message contains the original error text and
whose captured trace is non-empty; that error is a different variant from
the not-found and argument errors, and the failed call leaves every other
registered entry behaving exactly as before. -/
theorem C3_execution_error_taxonomy (reg : FunctionRegistry) (name : String)
    (f : PyFunction) (args : String) (prepared : List (String × JsonValue))
    (m : String)
    (hf : reg.get name = some f)
    (hargs : extract_arguments name f (some args) = .ok prepared)
    (hraise : f.body prepared = .raise m) :
    run_registered_tool reg name args =
      .error (.execError (execFailureMsg name m) (pythonTraceback m)) ∧
    (∃ pre, execFailureMsg name m = pre ++ m) ∧
    pythonTraceback m ≠ "" ∧
    (∀ s, (ToolError.execError (execFailureMsg name m) (pythonTraceback m)) ≠
      ToolError.toolNotFound s) ∧
    (∀ s, (ToolError.execError (execFailureMsg name m) (pythonTraceback m)) ≠
      ToolError.functionArgument s) ∧
    (∀ other args2, (reg.step (.callOp name (some args))).call other args2 =
      reg.call other args2) := by
  have hcall : reg.call name (some args) = .error (.userExc m) := by
    simp only [FunctionRegistry.call, hf, hargs, hraise]
  refine ⟨?_, ⟨"Tool '" ++ name ++ "' execution failed with error: ", rfl⟩,
    pythonTraceback_ne_empty m, fun s => by simp, fun s => by simp,
    fun _ _ => rfl⟩
  unfold run_registered_tool
  rw [hcall]

/-- Witness for C3: on a registry holding `boom` (whose body always raises)
and `add`, running `boom` yields the execution error with the original
message inside and a non-empty trace, and a subsequent call to `add` still
succeeds. -/
theorem C3_execution_error_taxonomy_witness :
    regBoomAdd.get "boom" = some boom_fn ∧
    run_registered_tool regBoomAdd "boom" "\x7b\x7d" =
      .error (.execError (execFailureMsg "boom" "'kaboom'")
        (pythonTraceback "'kaboom'")) ∧
    pythonTraceback "'kaboom'" ≠ "" ∧
    run_registered_tool regBoomAdd "add" "\x7b\"a\":2,\"b\":3\x7d" = .ok "5" := by
  have h := C3_execution_error_taxonomy regBoomAdd "boom" boom_fn "\x7b\x7d" [] "'kaboom'"
    rfl rfl rfl
  exact ⟨rfl, h.1, h.2.2.1, rfl⟩

/-- C7 counterexample: `"5"` is a non-empty payload that is valid JSON but
*not* a JSON object, yet no `ArgumentParseError` is raised: a call to a
zero-parameter tool with payload `"5"` simply succeeds, and a call to a tool
*with* parameters fails with the `AttributeError` from `.get` on an `int`,
surfaced as the generic execution error — not as the argument-parse error
the claim requires. -/
theorem C7_counterexample_nonobject_payload :
    json_loads "5" = some (.num 5) ∧
    run_registered_tool regPing "ping" "5" = .ok "pong" ∧
    run_registered_tool regAdd "add" "5" =
      .error (.execError (execFailureMsg "add" "'int' object has no attribute 'get'")
        (pythonTraceback "'int' object has no attribute 'get'")) :=
  ⟨rfl, rfl, rfl⟩

/-- C7 as amended: an absent or empty payload is treated as the empty object
(every parameter binds to `null`); a non-empty payload that fails to parse
as JSON fails with `FunctionArgumentError` before the callable is invoked;
but a payload that parses to a non-object JSON value is *not* rejected at
parse time — when the callable has no parameters it is not rejected at
all. -/
theorem C7_amended_payload_handling (name : String) (f f2 : PyFunction)
    (s s2 : String)
    (hs : s ≠ "") (hbad : json_loads s = none)
    (v : JsonValue) (hv : json_loads s2 = some v) (_hnotobj : ∀ kvs, v ≠ .obj kvs)
    (hnp : f2.params = []) :
    extract_arguments name f none =
      .ok (f.params.map fun p => (p.name, JsonValue.null)) ∧
    extract_arguments name f (some "") =
      .ok (f.params.map fun p => (p.name, JsonValue.null)) ∧
    extract_arguments name f (some s) = .error (.functionArgument
      ("Invalid Function call on " ++ name ++ ". Arguments must be a valid JSON object")) ∧
    (∀ reg : FunctionRegistry, reg.get name = some f →
      reg.call name (some s) = .error (.functionArgument
        ("Invalid Function call on " ++ name ++ ". Arguments must be a valid JSON object"))) ∧
    extract_arguments name f2 (some s2) = .ok [] := by
  have hempty : bind_params (.obj []) f.params =
      .ok (f.params.map fun p => (p.name, JsonValue.null)) :=
    bind_params_obj [] f.params
  have hparse : extract_arguments name f (some s) = .error (.functionArgument
      ("Invalid Function call on " ++ name ++ ". Arguments must be a valid JSON object")) := by
    simp only [extract_arguments]
    rw [if_neg hs, hbad]
  have hs2 : s2 ≠ "" := by
    intro he
    rw [he] at hv
    exact Option.noConfusion hv
  refine ⟨hempty, ?_, hparse, fun reg hreg => ?_, ?_⟩
  · exact hempty
  · simp only [FunctionRegistry.call, hreg, hparse]
  · simp only [extract_arguments, hv, hnp]
    rw [if_neg hs2]
    rfl

/-- Witness for C7 at concrete inputs: no payload and the empty payload both
bind every parameter of `add` to `null`; the garbage payload `"not json"`
fails with the argument error before `add` runs; the valid-but-non-object
payload `"5"` on the zero-parameter `ping` is accepted. -/
theorem C7_amended_payload_handling_witness :
    extract_arguments "add" add_fn none = .ok [("a", .null), ("b", .null)] ∧
    extract_arguments "add" add_fn (some "") = .ok [("a", .null), ("b", .null)] ∧
    extract_arguments "add" add_fn (some "not json") = .error (.functionArgument
      "Invalid Function call on add. Arguments must be a valid JSON object") ∧
    regAdd.call "add" (some "not json") = .error (.functionArgument
      "Invalid Function call on add. Arguments must be a valid JSON object") ∧
    extract_arguments "ping" ping_fn (some "5") = .ok [] := by
  have h := C7_amended_payload_handling "add" add_fn ping_fn "not json" "5"
    (by decide) rfl (.num 5) rfl (fun kvs => by simp) rfl
  exact ⟨h.1, h.2.1, h.2.2.1, h.2.2.2.1 regAdd rfl, h.2.2.2.2⟩

/-- C8: a string return value is passed through verbatim, every non-string
return value is serialized by `json.dumps(…, default=str)` — an object with
no native JSON representation is stringified (and quoted) rather than
failing the call — and concretely `call("add", '{"a":2,"b":3}')` returns the
string `"5"`. -/
theorem C8_result_normalization (reg : FunctionRegistry) (name : String)
    (args : String) :
    (∀ s, reg.call name (some args) = .ok (.vStr s) →
      run_registered_tool reg name args = .ok s) ∧
    (∀ v, reg.call name (some args) = .ok (.vJson v) →
      run_registered_tool reg name args = .ok (jsonDumps v)) ∧
    (∀ o, reg.call name (some args) = .ok (.vObj o) →
      run_registered_tool reg name args = .ok (jsonDumps (.str o))) ∧
    run_registered_tool regAdd "add" "\x7b\"a\":2,\"b\":3\x7d" = .ok "5" := by
  refine ⟨fun s h => ?_, fun v h => ?_, fun o h => ?_, rfl⟩ <;>
    (unfold run_registered_tool; rw [h]; rfl)

/-- Witness for C8: `add` on `{"a":2,"b":3}` returns the non-string value
`5`, which the tool layer serializes to the string `"5"`. -/
theorem C8_result_normalization_witness :
    regAdd.call "add" (some "\x7b\"a\":2,\"b\":3\x7d") = .ok (.vJson (.num 5)) ∧
    run_registered_tool regAdd "add" "\x7b\"a\":2,\"b\":3\x7d" =
      .ok (jsonDumps (.num 5)) ∧
    jsonDumps (.num 5) = "5" :=
  ⟨rfl,
   (C8_result_normalization regAdd "add" "\x7b\"a\":2,\"b\":3\x7d").2.1 (.num 5) rfl,
   rfl⟩

/-- C10 counterexample: the claim says the built argument set excludes the
receiver `self`.  For an unbound method registered directly — the very case
the source's schema deriver anticipates with its "skip `self` for class
methods" branch — the schema indeed omits `self`, but `extract_arguments`
does not skip it: the built argument set contains `("self", null)`. -/
theorem C10_counterexample_self_is_bound :
    extract_arguments "greet" greet_fn (some "\x7b\"x\":1\x7d") =
      .ok [("self", .null), ("x", .num 1)] ∧
    (∃ r, register_function emptyRegistry greet_fn none = .ok r) ∧
    (emptyRegistry.step (.regOne greet_fn none)).get_schema "greet" =
      some ⟨"greet", "Greet", .obj
        [("properties", .obj [("x", .obj [("type", .str "integer")])]),
         ("required", .arr [.str "x"]),
         ("type", .str "object")]⟩ :=
  ⟨rfl, ⟨_, rfl⟩, rfl⟩

/-- C10 as amended: for a payload parsing to a JSON object, keys that match
no signature parameter are silently ignored — never an error — and the built
argument set contains exactly the signature's parameters in order (including
a parameter named `self` if the signature has one; only schema derivation
skips it), each bound to the payload's value for that name or to `null` when
the name is absent. -/
theorem C10_amended_binding_rule (name : String) (f : PyFunction) (s : String)
    (kvs : List (String × JsonValue)) (h : json_loads s = some (.obj kvs)) :
    extract_arguments name f (some s) =
      .ok (f.params.map fun p => (p.name, (assocLookup kvs p.name).getD .null)) := by
  have hs : s ≠ "" := by
    intro he
    rw [he] at h
    exact Option.noConfusion h
  simp only [extract_arguments, h]
  rw [if_neg hs]
  exact bind_params_obj kvs f.params

/-- Witness for C10: a payload with the unknown key `"zzz"` on `add` is
accepted, the unknown key dropped, and both declared parameters bound. -/
theorem C10_amended_binding_rule_witness :
    extract_arguments "add" add_fn (some "\x7b\"a\":1,\"b\":2,\"zzz\":9\x7d") =
      .ok [("a", .num 1), ("b", .num 2)] :=
  C10_amended_binding_rule "add" add_fn "\x7b\"a\":1,\"b\":2,\"zzz\":9\x7d"
    [("a", .num 1), ("b", .num 2), ("zzz", .num 9)] rfl

/-- C4: registering a callable `(a: int, b: Optional[str])` — `b` a two-armed
union with `NoneType` and no explicit default — yields a schema whose
properties are exactly `a: integer` and `b: string` (the union unwrapped to
its non-null arm), whose required list is exactly `[a]`, and in which `b`
carries the default `null`, i.e. is optional. -/
theorem C4_optional_param_schema (nm doc : String)
    (body : List (String × JsonValue) → PyResult)
    (h1 : nm ≠ "") (h2 : nm ≠ "<lambda>") (h3 : doc ≠ "") :
    generate_function_schema
      ⟨nm, some doc,
       [⟨"a", some .pyInt, none⟩, ⟨"b", some (.pyUnion [.pyStr, .pyNone]), none⟩],
       body⟩ none =
    .ok ⟨nm, doc, .obj
      [("properties", .obj
        [("a", .obj [("type", .str "integer")]),
         ("b", .obj [("default", .null), ("type", .str "string")])]),
       ("required", .arr [.str "a"]),
       ("type", .str "object")]⟩ := by
  simp only [generate_function_schema]
  rw [if_neg h1, if_neg h2, if_neg h3]
  rfl

/-- Witness for C4 at the concrete callable `maybe(a: int, b: Optional[str])`. -/
theorem C4_optional_param_schema_witness :
    generate_function_schema maybe_fn none =
      .ok ⟨"maybe", "Maybe", .obj
        [("properties", .obj
          [("a", .obj [("type", .str "integer")]),
           ("b", .obj [("default", .null), ("type", .str "string")])]),
         ("required", .arr [.str "a"]),
         ("type", .str "object")]⟩ :=
  C4_optional_param_schema "maybe" "Maybe" maybe_fn.body
    (by decide) (by decide) (by decide)

/-- C5 counterexample: the claim says registering a callable with a
multi-arm union parameter (`Union[int, str]`) fails with
`UnsupportedTypeError` and adds no entry.  In fact registration succeeds —
there is no `UnsupportedTypeError` anywhere in the module — the entry is
added, and the parameter is rendered as an `anyOf` schema. -/
theorem C5_counterexample_multiarm_union_accepted :
    (∃ r, register_function emptyRegistry pick_fn none = .ok r) ∧
    (emptyRegistry.step (.regOne pick_fn none)).contains "pick" = true ∧
    (emptyRegistry.step (.regOne pick_fn none)).get_schema "pick" =
      some ⟨"pick", "Pick", .obj
        [("properties", .obj [("x", .obj [("anyOf", .arr
          [.obj [("type", .str "integer")], .obj [("type", .str "string")]])])]),
         ("required", .arr [.str "x"]),
         ("type", .str "object")]⟩ :=
  ⟨⟨_, rfl⟩, rfl, rfl⟩

/-- C5 as amended: schema derivation has no `UnsupportedTypeError`; a union
annotation that is not the special two-armed-with-None shape is accepted and
rendered as the `anyOf` of its arms' schemas, and registration succeeds. -/
theorem C5_amended_multiarm_union_anyOf (nm doc : String)
    (body : List (String × JsonValue) → PyResult) (args : List PyType)
    (h1 : nm ≠ "") (h2 : nm ≠ "<lambda>") (h3 : doc ≠ "")
    (hmulti : (args.length = 2 && args.any isNoneT) = false) :
    generate_function_schema
      ⟨nm, some doc, [⟨"x", some (.pyUnion args), none⟩], body⟩ none =
    .ok ⟨nm, doc, .obj
      [("properties", .obj [("x", .obj [("anyOf", .arr (typeSchemaList args))])]),
       ("required", .arr [.str "x"]),
       ("type", .str "object")]⟩ := by
  simp only [generate_function_schema]
  rw [if_neg h1, if_neg h2, if_neg h3]
  simp only [derive_parameters, extract_model_from_function, resolveField, hmulti,
    Bool.false_eq_true, if_false]
  rfl

/-- Witness for C5 at the concrete callable `pick(x: Union[int, str])`. -/
theorem C5_amended_multiarm_union_anyOf_witness :
    generate_function_schema pick_fn none =
      .ok ⟨"pick", "Pick", .obj
        [("properties", .obj [("x", .obj [("anyOf", .arr
          (typeSchemaList [.pyInt, .pyStr]))])]),
         ("required", .arr [.str "x"]),
         ("type", .str "object")]⟩ :=
  C5_amended_multiarm_union_anyOf "pick" "Pick" pick_fn.body [.pyInt, .pyStr]
    (by decide) (by decide) (by decide) (by decide)

/-- Walking a signature whose prefix parameters are each `self` or annotated
reaches the first unannotated parameter and raises the missing-annotation
error naming it. -/
theorem extract_model_error_at (func_name : String) (p1 : List Param)
    (n : String) (d : Option JsonValue) (p2 : List Param)
    (hn : n ≠ "self")
    (hp1 : ∀ p ∈ p1, p.name = "self" ∨ ∃ t, p.annotation = some t) :
    extract_model_from_function func_name (p1 ++ ⟨n, none, d⟩ :: p2) =
      .error (.missingAnnotationError ("`" ++ n ++ "` parameter of " ++ func_name ++
        " must have a JSON-serializable type annotation")) := by
  induction p1 with
  | nil =>
    simp only [List.nil_append, extract_model_from_function]
    rw [if_neg hn]
  | cons p rest ih =>
    have hrest := fun q hq => hp1 q (List.mem_cons.mpr (Or.inr hq))
    by_cases hps : p.name = "self"
    · simp only [List.cons_append, extract_model_from_function, if_pos hps]
      exact ih hrest
    · rcases hp1 p (List.mem_cons.mpr (Or.inl rfl)) with hself | ⟨t, ht⟩
      · exact absurd hself hps
      · simp only [List.cons_append, extract_model_from_function, if_neg hps, ht,
          List.append_eq]
        rw [ih hrest]

/-- C6: a failed registration is atomic.  Whatever the failure —
no name, a lambda, a missing docstring, or a missing annotation — the
exception is raised by schema derivation before either store assignment, so
the registry is left exactly as before: no entry or partial entry under the
new name, previously registered entries untouched.  In particular a callable
with one unannotated (non-self) parameter fails with the missing-annotation
error naming that parameter. -/
theorem C6_registration_failure_is_atomic (reg : FunctionRegistry) :
    (∀ f ps e, generate_function_schema f ps = .error e →
      register_function reg f ps = .error e ∧ reg.step (.regOne f ps) = reg) ∧
    (∀ (f : PyFunction) (p1 p2 : List Param) (n : String) (d : Option JsonValue),
      f.name ≠ "" → f.name ≠ "<lambda>" →
      (∃ doc, f.doc = some doc ∧ doc ≠ "") →
      f.params = p1 ++ ⟨n, none, d⟩ :: p2 →
      n ≠ "self" →
      (∀ p ∈ p1, p.name = "self" ∨ ∃ t, p.annotation = some t) →
      register_function reg f none = .error (.missingAnnotationError
        ("`" ++ n ++ "` parameter of " ++ f.name ++
         " must have a JSON-serializable type annotation")) ∧
      reg.step (.regOne f none) = reg) := by
  have hpart1 : ∀ f ps e, generate_function_schema f ps = .error e →
      register_function reg f ps = .error e ∧ reg.step (.regOne f ps) = reg := by
    intro f ps e h
    have hr : register_function reg f ps = .error e := by
      unfold register_function
      rw [h]
    refine ⟨hr, ?_⟩
    simp only [FunctionRegistry.step]
    rw [hr]
  refine ⟨hpart1, ?_⟩
  intro f p1 p2 n d h1 h2 hdoc3 hparams hn hp1
  obtain ⟨doc, hdoc, h3⟩ := hdoc3
  have hgen : generate_function_schema f none = .error (.missingAnnotationError
      ("`" ++ n ++ "` parameter of " ++ f.name ++
       " must have a JSON-serializable type annotation")) := by
    simp only [generate_function_schema, hdoc]
    rw [if_neg h1, if_neg h2, if_neg h3]
    simp only [derive_parameters]
    rw [hparams, extract_model_error_at f.name p1 n d p2 hn hp1]
  exact hpart1 f none _ hgen

/-- Witness for C6: registering `bad(x)` (no annotation on `x`) on the
registry holding `add` fails with the missing-annotation error naming `x`,
leaves the registry exactly as before, keeps `add` registered and adds no
entry for `bad`. -/
theorem C6_registration_failure_is_atomic_witness :
    register_function regAdd bad_fn none = .error (.missingAnnotationError
      "`x` parameter of bad must have a JSON-serializable type annotation") ∧
    regAdd.step (.regOne bad_fn none) = regAdd ∧
    regAdd.contains "add" = true ∧
    regAdd.contains "bad" = false := by
  have h := (C6_registration_failure_is_atomic regAdd).2 bad_fn [] [] "x" none
    (by decide) (by decide) ⟨"Bad", rfl, by decide⟩ rfl (by decide) (by simp)
  exact ⟨h.1, h.2, rfl, rfl⟩

/-! ## The function-map / schema-map synchronization invariant (C9) -/

/-- The registry invariant: the two private maps have the same keys in the
same order, keys are unique, and every stored schema carries its own key as
its name. -/
def goodRegistry (reg : FunctionRegistry) : Prop :=
  keysOf reg.functions = keysOf reg.schemas ∧
  (keysOf reg.functions).Nodup ∧
  ∀ kv ∈ reg.schemas, kv.2.name = kv.1

theorem goodRegistry_empty : goodRegistry emptyRegistry :=
  ⟨rfl, List.nodup_nil, by intro kv h; exact absurd h (List.not_mem_nil kv)⟩

theorem goodRegistry_step_regOne (reg : FunctionRegistry) (f : PyFunction)
    (ps : Option JsonValue) (h : goodRegistry reg) :
    goodRegistry (reg.step (.regOne f ps)) := by
  simp only [FunctionRegistry.step]
  split
  case h_2 => exact h
  case h_1 reg2 fd hreg =>
    unfold register_function at hreg
    split at hreg
    case h_1 => exact Except.noConfusion hreg
    case h_2 final_schema hgen =>
      injection hreg with hpair
      have hmaps : reg2 = ⟨assocUpdate reg.functions f.name f,
          assocUpdate reg.schemas f.name final_schema⟩ :=
        (congrArg Prod.fst hpair).symm
      rw [hmaps]
      refine ⟨?_, ?_, ?_⟩
      · show keysOf (assocUpdate reg.functions f.name f) =
          keysOf (assocUpdate reg.schemas f.name final_schema)
        rw [keysOf_assocUpdate, keysOf_assocUpdate, h.1]
      · show (keysOf (assocUpdate reg.functions f.name f)).Nodup
        rw [keysOf_assocUpdate]
        exact nodup_updateKeys _ _ h.2.1
      · intro kv hkv
        rcases mem_assocUpdate _ _ _ kv hkv with h1 | h1
        · exact h.2.2 kv h1
        · rw [h1]
          exact generate_function_schema_name f ps final_schema hgen

theorem goodRegistry_registerManyGo (fs : List PyFunction) :
    ∀ reg : FunctionRegistry, goodRegistry reg →
      goodRegistry (registerManyGo reg fs) := by
  induction fs with
  | nil => intro reg h; exact h
  | cons f fs ih =>
    intro reg h
    simp only [registerManyGo]
    split
    case h_2 => exact h
    case h_1 reg2 fd hreg =>
      refine ih reg2 ?_
      have h2 := goodRegistry_step_regOne reg f none h
      simp only [FunctionRegistry.step, hreg] at h2
      exact h2

theorem goodRegistry_step (reg : FunctionRegistry) (op : RegOp)
    (h : goodRegistry reg) : goodRegistry (reg.step op) := by
  cases op with
  | regOne f ps => exact goodRegistry_step_regOne reg f ps h
  | regMany fs => exact goodRegistry_registerManyGo fs reg h
  | callOp name args => exact h

theorem goodRegistry_runOps (ops : List RegOp) :
    ∀ reg : FunctionRegistry, goodRegistry reg →
      goodRegistry (runOps reg ops) := by
  induction ops with
  | nil => intro reg h; exact h
  | cons op ops ih => intro reg h; exact ih _ (goodRegistry_step reg op h)

theorem countP_map_fn {α β : Type} (l : List α) (f : α → β) (p : β → Bool) :
    (l.map f).countP p = l.countP (fun a => p (f a)) := by
  induction l with
  | nil => rfl
  | cons a rest ih => rw [List.map_cons, List.countP_cons, List.countP_cons, ih]

theorem countP_congr_mem {α : Type} (l : List α) (p q : α → Bool)
    (h : ∀ a ∈ l, p a = q a) : l.countP p = l.countP q := by
  induction l with
  | nil => rfl
  | cons a rest ih =>
    rw [List.countP_cons, List.countP_cons, h a (List.mem_cons.mpr (Or.inl rfl)),
      ih (fun b hb => h b (List.mem_cons.mpr (Or.inr hb)))]

theorem countP_eq_one_of_nodup (l : List String) (n : String) (h : l.Nodup) :
    l.countP (fun k => k == n) = if n ∈ l then 1 else 0 := by
  induction l with
  | nil => simp
  | cons k rest ih =>
    rw [List.nodup_cons] at h
    rw [List.countP_cons]
    by_cases hk : k = n
    · subst hk
      rw [ih h.2, if_pos (List.mem_cons.mpr (Or.inl rfl)), if_neg h.1]
      simp
    · rw [ih h.2]
      have hmem : (n ∈ k :: rest) ↔ n ∈ rest := by
        rw [List.mem_cons]
        exact ⟨fun h2 => h2.resolve_left (fun he => hk he.symm), Or.inr⟩
      have hpk : (k == n) = false := by
        rw [beq_eq_false_iff_ne]
        exact hk
      rw [hpk]
      by_cases hm : n ∈ rest
      · rw [if_pos hm, if_pos (hmem.mpr hm)]
        simp
      · rw [if_neg hm, if_neg (fun h2 => hm (hmem.mp h2))]
        simp

/-- C9: after every sequence of registry operations (register, bulk
register, call) starting from a fresh registry, the function map and the
schema map stay synchronized: `contains(name)` holds iff `get(name)` returns
a callable iff `get_schema(name)` returns a definition, and
`function_definitions` holds exactly one definition per registered name (and
none for unregistered names). -/
theorem C9_maps_synchronized (ops : List RegOp) :
    (∀ n, (runOps emptyRegistry ops).contains n = true ↔
      ((runOps emptyRegistry ops).get n).isSome = true) ∧
    (∀ n, ((runOps emptyRegistry ops).get n).isSome = true ↔
      ((runOps emptyRegistry ops).get_schema n).isSome = true) ∧
    (∀ n, (runOps emptyRegistry ops).function_definitions.countP
        (fun d => d.name == n) =
      if (runOps emptyRegistry ops).contains n = true then 1 else 0) := by
  have hg := goodRegistry_runOps ops emptyRegistry goodRegistry_empty
  set reg := runOps emptyRegistry ops with hdef
  obtain ⟨hkeys, hnodup, hnames⟩ := hg
  refine ⟨fun n => Iff.rfl, fun n => ?_, fun n => ?_⟩
  · rw [FunctionRegistry.get, FunctionRegistry.get_schema,
      assocLookup_isSome_iff, assocLookup_isSome_iff, hkeys]
  · have h1 : reg.function_definitions.countP (fun d => d.name == n) =
        reg.schemas.countP (fun kv => kv.2.name == n) := by
      rw [FunctionRegistry.function_definitions, countP_map_fn]
    have h2 : reg.schemas.countP (fun kv => kv.2.name == n) =
        reg.schemas.countP (fun kv => kv.1 == n) :=
      countP_congr_mem _ _ _ (fun kv hkv => by rw [hnames kv hkv])
    have h3 : reg.schemas.countP (fun kv => kv.1 == n) =
        (keysOf reg.schemas).countP (fun k => k == n) := by
      rw [keysOf, countP_map_fn]
    have hcont : (reg.contains n = true) ↔ n ∈ keysOf reg.schemas := by
      rw [FunctionRegistry.contains, assocLookup_isSome_iff, hkeys]
    rw [h1, h2, h3, countP_eq_one_of_nodup _ _ (hkeys ▸ hnodup)]
    by_cases hmem : n ∈ keysOf reg.schemas
    · rw [if_pos hmem, if_pos (hcont.mpr hmem)]
    · rw [if_neg hmem, if_neg (fun hc => hmem (hcont.mp hc))]
